import Mathlib

set_option autoImplicit false

/- Shallow embedding of the drought prediction core pipeline of
   src/backend/app/services/ml_service.py together with the window and
   validation logic of src/backend/app/main.py and
   src/backend/app/models/prediction_model.py.
   Real-valued feature data is modelled by rationals. -/

namespace DroughtML

/-- The five severity levels produced by categorize_drought. -/
inductive SeverityLevel where
  | no_drought
  | mild
  | moderate
  | severe
  | extreme
deriving DecidableEq, Repr

open SeverityLevel

/-- Severity label attached to each level, as fixed by the DroughtCategory
    enum of prediction_model.py (the strings the feature configuration maps
    each level key to). -/
def severityLabel : SeverityLevel → String
  | no_drought => "No Drought"
  | mild => "Mild Drought"
  | moderate => "Moderate Drought"
  | severe => "Severe Drought"
  | extreme => "Extreme Drought"

/-- categorize_drought of ml_service.py (lines 136-155): a chained
    comparison on the regcdi value, first matching branch wins. -/
def categorize_drought (regcdi : ℚ) : SeverityLevel :=
  if regcdi ≥ 1/2 then no_drought
  else if regcdi ≥ 0 then mild
  else if regcdi ≥ -(1/2) then moderate
  else if regcdi ≥ -1 then severe
  else extreme

/-- Severity classification as the ordered threshold table of the spec
    states it: rows evaluated top to bottom, first match wins, half-open
    intervals whose boundary belongs to the higher bucket. -/
def classifySpecTable (d : ℚ) : SeverityLevel :=
  if 1/2 ≤ d then no_drought
  else if 0 ≤ d ∧ d < 1/2 then mild
  else if -(1/2) ≤ d ∧ d < 0 then moderate
  else if -1 ≤ d ∧ d < -(1/2) then severe
  else extreme

/-- The four boundary values used by calculate_confidence
    (ml_service.py line 170). -/
def boundaries : List ℚ := [-1, -(1/2), 0, 1/2]

/-- calculate_confidence of ml_service.py (lines 168-175): minimum absolute
    distance from regcdi to the four boundaries, then 0.5 + 0.25 times that
    distance, clamped above at 1. -/
def calculate_confidence (regcdi : ℚ) : ℚ :=
  let distances := boundaries.map (fun b => |regcdi - b|)
  let min_distance := distances.min?.getD 0
  let confidence := 1/2 + min_distance * (1/4)
  min confidence 1

theorem calculate_confidence_eq (q : ℚ) :
    calculate_confidence q =
      min (1/2 + (min (min (min |q + 1| |q + 1/2|) |q|) |q - 1/2|) * (1/4)) 1 := by
  simp only [calculate_confidence, boundaries, List.map, List.min?, List.foldl,
    Option.getD]
  norm_num

/-- C1: categorize_drought agrees with the ordered threshold table of the
    spec at every rational domain index; in particular 0.5 classifies as
    No Drought and -1.0 as Severe Drought. -/
theorem categorize_drought_eq_no_drought {q : ℚ} (h1 : 1/2 ≤ q) :
    categorize_drought q = SeverityLevel.no_drought := by
  unfold categorize_drought
  rw [if_pos h1]

theorem categorize_drought_eq_mild {q : ℚ} (h1 : q < 1/2) (h2 : 0 ≤ q) :
    categorize_drought q = SeverityLevel.mild := by
  unfold categorize_drought
  rw [if_neg (not_le.mpr h1), if_pos h2]

theorem categorize_drought_eq_moderate {q : ℚ} (h2 : q < 0) (h3 : -(1/2) ≤ q) :
    categorize_drought q = SeverityLevel.moderate := by
  unfold categorize_drought
  rw [if_neg (not_le.mpr (h2.trans (by norm_num))), if_neg (not_le.mpr h2), if_pos h3]

theorem categorize_drought_eq_severe {q : ℚ} (h3 : q < -(1/2)) (h4 : -1 ≤ q) :
    categorize_drought q = SeverityLevel.severe := by
  unfold categorize_drought
  rw [if_neg (not_le.mpr (h3.trans (by norm_num))),
    if_neg (not_le.mpr (h3.trans (by norm_num))), if_neg (not_le.mpr h3), if_pos h4]

theorem categorize_drought_eq_extreme {q : ℚ} (h4 : q < -1) :
    categorize_drought q = SeverityLevel.extreme := by
  unfold categorize_drought
  rw [if_neg (not_le.mpr (h4.trans (by norm_num))),
    if_neg (not_le.mpr (h4.trans (by norm_num))),
    if_neg (not_le.mpr (h4.trans (by norm_num))), if_neg (not_le.mpr h4)]

/-- C1: categorize_drought agrees with the ordered threshold table of the
    spec at every rational domain index; in particular 0.5 classifies as
    No Drought and -1.0 as Severe Drought. -/
theorem categorize_drought_matches_spec_table :
    (∀ q : ℚ, categorize_drought q = classifySpecTable q) ∧
    severityLabel (categorize_drought (1/2)) = "No Drought" ∧
    severityLabel (categorize_drought (-1)) = "Severe Drought" := by
  refine ⟨fun q => ?_,
    by rw [categorize_drought_eq_no_drought le_rfl]; rfl,
    by rw [categorize_drought_eq_severe (by norm_num) le_rfl]; rfl⟩
  unfold classifySpecTable
  rcases le_or_lt (1/2 : ℚ) q with h1 | h1
  · rw [if_pos h1, categorize_drought_eq_no_drought h1]
  rcases le_or_lt (0 : ℚ) q with h2 | h2
  · rw [if_neg (not_le.mpr h1), if_pos ⟨h2, h1⟩, categorize_drought_eq_mild h1 h2]
  rcases le_or_lt (-(1/2) : ℚ) q with h3 | h3
  · rw [if_neg (not_le.mpr (h2.trans (by norm_num))),
      if_neg (fun hc => absurd hc.1 (not_le.mpr h2)), if_pos ⟨h3, h2⟩,
      categorize_drought_eq_moderate h2 h3]
  rcases le_or_lt (-1 : ℚ) q with h4 | h4
  · rw [if_neg (not_le.mpr (h3.trans (by norm_num))),
      if_neg (fun hc => absurd hc.1 (not_le.mpr (h3.trans (by norm_num)))),
      if_neg (fun hc => absurd hc.1 (not_le.mpr h3)), if_pos ⟨h4, h3⟩,
      categorize_drought_eq_severe h3 h4]
  · rw [if_neg (not_le.mpr (h4.trans (by norm_num))),
      if_neg (fun hc => absurd hc.1 (not_le.mpr (h4.trans (by norm_num)))),
      if_neg (fun hc => absurd hc.1 (not_le.mpr (h4.trans (by norm_num)))),
      if_neg (fun hc => absurd hc.1 (not_le.mpr h4)),
      categorize_drought_eq_extreme h4]

/-- C2: the confidence score is min(1, 0.5 + 0.25 d) with d the minimum
    absolute distance from the domain index to the four boundaries; every
    boundary value yields exactly 0.5, and -2.0 yields 0.75. -/
theorem calculate_confidence_spec :
    (∀ q : ℚ, calculate_confidence q =
      min 1 (1/2 + (1/4) * min (min |q - (-1)| |q - (-(1/2))|) (min |q - 0| |q - (1/2)|))) ∧
    calculate_confidence (-1) = 1/2 ∧
    calculate_confidence (-(1/2)) = 1/2 ∧
    calculate_confidence 0 = 1/2 ∧
    calculate_confidence (1/2) = 1/2 ∧
    calculate_confidence (-2) = 3/4 := by
  refine ⟨fun q => ?_,
    by rw [calculate_confidence_eq]; norm_num,
    by rw [calculate_confidence_eq]; norm_num,
    by rw [calculate_confidence_eq]; norm_num,
    by rw [calculate_confidence_eq]; norm_num,
    by rw [calculate_confidence_eq]; norm_num [abs_of_nonneg, abs_of_nonpos]⟩
  rw [calculate_confidence_eq, min_comm]
  rw [min_assoc (min |q + 1| |q + 1/2|) |q| |q - 1/2|]
  ring_nf

/-- The seven required feature column names in the canonical order fixed by
    the feature configuration, repeated verbatim in the upload_data
    validation of main.py (lines 142-145). -/
def requiredColumns : List String :=
  ["rainfall_mm", "tmax_c", "tmin_c", "spei", "spi", "ndvi", "soil_moisture"]

/-- One raw input row: a mapping from column name to numeric value,
    modelled as an association list in which the first binding for a name
    wins, as for a DataFrame column. -/
abbrev Row := List (String × ℚ)

/-- An affine scaler artifact: the single fitted mean and scale pair of a
    pickled StandardScaler. -/
structure Scaler where
  mean : ℚ
  scale : ℚ
deriving DecidableEq, Repr

/-- Forward transform of the scaler: subtract the mean, divide by the
    scale. -/
def Scaler.transform (s : Scaler) (x : ℚ) : ℚ := (x - s.mean) / s.scale

/-- Inverse transform of the scaler: multiply by the scale, add the mean
    back. -/
def Scaler.inverse_transform (s : Scaler) (x : ℚ) : ℚ := x * s.scale + s.mean

/-- Typed rendering of the failures the pipeline can raise, following the
    section 7 taxonomy of the spec: the ValueError of predict when the
    model field is still None, the missing-column failures of column
    projection, and the window-length rejection of the manual route. -/
inductive MLError where
  | modelNotLoaded
  | scalerNotLoaded
  | schemaError (missing : List String)
  | shapeError (got : Nat)
deriving DecidableEq, Repr

/-- The fields of DroughtMLService: the loaded model (an opaque inference
    function from the batched tensor to the scalar output), the two
    scalers and the configured feature-name order; the first three are
    None until load_model has run. -/
structure ServiceState where
  model : Option (List (List (List ℚ)) → ℚ)
  scaler_X : Option Scaler
  scaler_y : Option Scaler
  feature_names : List String

/-- Column projection df[feature_names] applied to one row: the named
    columns in the configured order with extra columns ignored; missing
    columns are reported by name, as in the upload_data validation of
    main.py and the KeyError pandas raises inside preprocess_data. -/
def projectRow (names : List String) (row : Row) : Except MLError (List ℚ) :=
  let missing := names.filter (fun c => (row.lookup c).isNone)
  if missing.isEmpty then .ok (names.filterMap (fun c => row.lookup c))
  else .error (.schemaError missing)

/-- Sequencing of a fallible projection over the rows of the frame. -/
def mapExcept {α β ε : Type} (f : α → Except ε β) : List α → Except ε (List β)
  | [] => .ok []
  | a :: l => do
      let b ← f a
      let bs ← mapExcept f l
      .ok (b :: bs)

/-- Reshape of the flat scaled column back to the original row layout:
    data_scaled.reshape(original_shape) for the row-major flattening
    reshape(-1, 1) produced. -/
def reshapeLike : List (List ℚ) → List ℚ → List (List ℚ)
  | [], _ => []
  | r :: rs, xs => xs.take r.length :: reshapeLike rs (xs.drop r.length)

/-- The numeric steps of preprocess_data (ml_service.py lines 72-86):
    flatten the matrix row-major into one column, scale every cell with
    the single scaler_X pair, reshape back to the original shape, and add
    a leading batch dimension with np.expand_dims. -/
def scale_and_batch (sx : Scaler) (data : List (List ℚ)) : List (List (List ℚ)) :=
  let data_flat := data.flatten
  let data_scaled := data_flat.map sx.transform
  [reshapeLike data data_scaled]

/-- preprocess_data of ml_service.py (lines 66-86): reorder every row to
    the configured column order, then flatten, scale, reshape and add the
    batch dimension. -/
def preprocess_data (names : List String) (sx : Scaler) (df : List Row) :
    Except MLError (List (List (List ℚ))) := do
  let data ← mapExcept (projectRow names) df
  .ok (scale_and_batch sx data)

/-- The structured result predict assembles (the wall-clock timestamp
    field carries no algorithmic content and is omitted). -/
structure PredictionResult where
  regcdi_value : ℚ
  drought_category : String
  severity_level : SeverityLevel
  confidence_score : ℚ
  model_version : String
  window_start : Option Nat := none
  window_end : Option Nat := none
deriving DecidableEq, Repr

/-- predict of ml_service.py (lines 88-115) with the service state
    threaded explicitly; the method writes no field of self, so the state
    comes back unchanged on every path. A None scaler surfaces as the
    scaler-not-loaded failure the spec names. -/
def predictM (st : ServiceState) (df : List Row) :
    Except MLError PredictionResult × ServiceState :=
  match st.model with
  | none => (.error .modelNotLoaded, st)
  | some model =>
    match st.scaler_X, st.scaler_y with
    | some sx, some sy =>
      match preprocess_data st.feature_names sx df with
      | .error e => (.error e, st)
      | .ok X =>
        let y_pred_scaled := model X
        let regcdi_value := sy.inverse_transform y_pred_scaled
        let category := categorize_drought regcdi_value
        (.ok {
          regcdi_value := regcdi_value
          drought_category := severityLabel category
          severity_level := category
          confidence_score := calculate_confidence regcdi_value
          model_version := "stat-LSTM-v1.0" }, st)
    | _, _ => (.error .scalerNotLoaded, st)

/-- predict as its caller observes it: the result component of predictM. -/
def predict (st : ServiceState) (df : List Row) : Except MLError PredictionResult :=
  (predictM st df).1

/-- One rolling window df.iloc[i:i+12]. -/
def window (df : List Row) (i : Nat) : List Row := (df.drop i).take 12

/-- Holds when the predict call for the window starting at row i comes
    back without an error. -/
def window_ok (st : ServiceState) (df : List Row) (i : Nat) : Bool :=
  (predict st (window df i)).isOk

/-- The loop body of predict_batch for the window starting at row i: the
    tagged result of the predict call, or nothing when that call fails
    (the except branch of ml_service.py lines 130-132). -/
def tag_window (st : ServiceState) (df : List Row) (i : Nat) : Option PredictionResult :=
  match predict st (window df i) with
  | .ok result => some { result with window_start := some i, window_end := some (i + 11) }
  | .error _ => none

/-- predict_batch of ml_service.py (lines 117-134): for i in
    range(len(df) - 11), run predict on the window starting at row i, tag
    the result with window_start and window_end, and skip any window whose
    predict call fails. -/
def predict_batch (st : ServiceState) (df : List Row) : List PredictionResult :=
  (List.range (df.length - 11)).filterMap (tag_window st df)

/-- The shape-validation step of the predict_manual route handler of
    main.py (lines 105-110): reject a submission whose length is not 12
    before ml_service.predict is invoked. -/
def predict_manual (st : ServiceState) (data : List Row) :
    Except MLError PredictionResult :=
  if data.length ≠ 12 then .error (.shapeError data.length)
  else predict st data

/-- A complete test row carrying every required column with value 0. -/
def goodRow : Row := requiredColumns.map (fun c => (c, (0 : ℚ)))

/-- A malformed test row missing six of the seven required columns. -/
def badRow : Row := [("rainfall_mm", (0 : ℚ))]

/-- A schema-complete test row whose ndvi and soil_moisture values lie
    outside the documented ranges. -/
def oorRow : Row :=
  [("rainfall_mm", (0 : ℚ)), ("tmax_c", 0), ("tmin_c", 0), ("spei", 0),
    ("spi", 0), ("ndvi", 5), ("soil_moisture", -3)]

/-- A fully loaded test state with a constant model and identity-like
    scalers. -/
def testState : ServiceState :=
  ⟨some (fun _ => 0), some ⟨0, 1⟩, some ⟨0, 1⟩, requiredColumns⟩

/-- MonthlyFeatures of prediction_model.py: one month of the seven named
    features. -/
structure MonthlyFeatures where
  rainfall_mm : ℚ
  tmax_c : ℚ
  tmin_c : ℚ
  spei : ℚ
  spi : ℚ
  ndvi : ℚ
  soil_moisture : ℚ
deriving DecidableEq, Repr

/-- The field constraints pydantic enforces on MonthlyFeatures: ndvi
    carries ge=0 and le=1, soil_moisture carries ge=0 and le=100; every
    other field is an unconstrained float. -/
def MonthlyFeatures.valid (r : MonthlyFeatures) : Bool :=
  decide (0 ≤ r.ndvi) && decide (r.ndvi ≤ 1) &&
  decide (0 ≤ r.soil_moisture) && decide (r.soil_moisture ≤ 100)

/-- C9: the confidence score always lies in the closed interval
    [0.5, 1], a tighter range than the [0, 1] the spec states. -/
theorem calculate_confidence_range :
    ∀ q : ℚ, 1/2 ≤ calculate_confidence q ∧ calculate_confidence q ≤ 1 := by
  intro q
  rw [calculate_confidence_eq]
  constructor
  · refine le_min ?_ (by norm_num)
    have hd : (0 : ℚ) ≤ min (min (min |q + 1| |q + 1/2|) |q|) |q - 1/2| := by
      positivity
    nlinarith
  · exact min_le_right _ _

/-- C5: a window whose length is not 12 is rejected with the typed
    window-length error by the manual prediction entry point, whatever the
    service state, so neither scaling nor inference can have run. -/
theorem predict_manual_rejects_bad_length (st : ServiceState) (data : List Row)
    (h : data.length ≠ 12) :
    predict_manual st data = .error (.shapeError data.length) := by
  unfold predict_manual
  rw [if_pos h]

/-- Witness for C5: an 11-row submission is rejected with the
    window-length error. -/
theorem predict_manual_rejects_bad_length_witness :
    (List.replicate 11 ([] : Row)).length ≠ 12 ∧
      predict_manual ⟨none, none, none, requiredColumns⟩ (List.replicate 11 ([] : Row))
        = .error (.shapeError (List.replicate 11 ([] : Row)).length) :=
  ⟨by decide,
    predict_manual_rejects_bad_length ⟨none, none, none, requiredColumns⟩
      (List.replicate 11 ([] : Row)) (by decide)⟩

/-- C6: calling predict while the model field is still None fails with
    the model-not-loaded error and leaves the service state exactly as it
    was, whatever the input window. -/
theorem predict_unloaded_fails_without_side_effects
    (st : ServiceState) (df : List Row) (h : st.model = none) :
    predictM st df = (.error .modelNotLoaded, st) := by
  unfold predictM
  rw [h]

/-- Witness for C6: the freshly constructed service state rejects a
    12-row window with the model-not-loaded error and is not mutated. -/
theorem predict_unloaded_fails_without_side_effects_witness :
    (ServiceState.model ⟨none, none, none, requiredColumns⟩ = none) ∧
      predictM ⟨none, none, none, requiredColumns⟩ (List.replicate 12 ([] : Row))
        = (.error .modelNotLoaded, ⟨none, none, none, requiredColumns⟩) :=
  ⟨rfl,
    predict_unloaded_fails_without_side_effects ⟨none, none, none, requiredColumns⟩
      (List.replicate 12 ([] : Row)) rfl⟩

theorem reshapeLike_flatten_map (f : ℚ → ℚ) (data : List (List ℚ)) :
    reshapeLike data (data.flatten.map f) = data.map (List.map f) := by
  induction data with
  | nil => rfl
  | cons r rs ih =>
    simp only [List.flatten_cons, List.map_append, reshapeLike]
    rw [List.take_left' (by rw [List.length_map]),
      List.drop_left' (by rw [List.length_map]), ih]
    rfl

/-- C7: on a 12-by-7 window the forward preprocessing applies the single
    mean/scale pair of scaler_X uniformly to each of the 84 cells (the
    flatten, scale, reshape route equals the cellwise affine map) and
    produces a tensor of shape (1, 12, 7). -/
theorem scale_and_batch_spec (sx : Scaler) (data : List (List ℚ))
    (h12 : data.length = 12) (h7 : ∀ r ∈ data, r.length = 7) :
    scale_and_batch sx data
        = [data.map (List.map (fun x => (x - sx.mean) / sx.scale))] ∧
    (scale_and_batch sx data).length = 1 ∧
    ∀ m ∈ scale_and_batch sx data, m.length = 12 ∧ ∀ r ∈ m, r.length = 7 := by
  have hcell : scale_and_batch sx data = [data.map (List.map sx.transform)] := by
    show [reshapeLike data (data.flatten.map sx.transform)]
        = [data.map (List.map sx.transform)]
    rw [reshapeLike_flatten_map]
  refine ⟨hcell, by rw [hcell]; rfl, ?_⟩
  intro m hm
  rw [hcell, List.mem_singleton] at hm
  subst hm
  refine ⟨by rw [List.length_map, h12], ?_⟩
  intro r hr
  rcases List.mem_map.mp hr with ⟨r0, hr0, rfl⟩
  rw [List.length_map]
  exact h7 r0 hr0

/-- Witness for C7: a concrete 12-by-7 zero window with a concrete scaler
    flattens, scales and reshapes to the cellwise map, with shape
    (1, 12, 7). -/
theorem scale_and_batch_spec_witness :
    ((List.replicate 12 (List.replicate 7 (0 : ℚ))).length = 12 ∧
      ∀ r ∈ List.replicate 12 (List.replicate 7 (0 : ℚ)), r.length = 7) ∧
    (scale_and_batch ⟨1, 2⟩ (List.replicate 12 (List.replicate 7 (0 : ℚ)))
        = [(List.replicate 12 (List.replicate 7 (0 : ℚ))).map
            (List.map (fun x => (x - (1 : ℚ)) / 2))] ∧
      (scale_and_batch ⟨1, 2⟩ (List.replicate 12 (List.replicate 7 (0 : ℚ)))).length = 1 ∧
      ∀ m ∈ scale_and_batch ⟨1, 2⟩ (List.replicate 12 (List.replicate 7 (0 : ℚ))),
        m.length = 12 ∧ ∀ r ∈ m, r.length = 7) :=
  ⟨⟨by decide, by decide⟩,
    scale_and_batch_spec ⟨1, 2⟩ (List.replicate 12 (List.replicate 7 (0 : ℚ)))
      (by decide) (by decide)⟩

theorem projectRow_ok (names : List String) (row : Row)
    (h : ∀ c ∈ names, (row.lookup c).isSome) :
    projectRow names row = .ok (names.filterMap (fun c => row.lookup c)) := by
  unfold projectRow
  rw [if_pos]
  rw [List.filter_eq_nil_iff.mpr ?_]
  · rfl
  · intro c hc
    rw [Bool.not_eq_true, Option.isNone_eq_false_iff]
    exact h c hc

theorem filterMap_map_some {α β : Type} (f : α → Option β) (l : List α)
    (h : ∀ a ∈ l, (f a).isSome) : (l.filterMap f).map some = l.map f := by
  induction l with
  | nil => rfl
  | cons a l ih =>
    have ha := h a (List.mem_cons_self a l)
    rcases Option.isSome_iff_exists.mp ha with ⟨b, hb⟩
    rw [List.filterMap_cons, hb, List.map_cons, List.map_cons, ← hb,
      ih (fun x hx => h x (List.mem_cons_of_mem a hx))]

/-- C8: when every required column is present the projection returns the
    seven looked-up values in canonical order, ignoring extras and the
    record's own ordering; when a required column is absent it fails with
    a schema error whose column list names exactly missing required
    columns, the absent one among them. -/
theorem projectRow_spec (rec : Row) :
    ((∀ c ∈ requiredColumns, (rec.lookup c).isSome) →
      ∃ vs, projectRow requiredColumns rec = .ok vs ∧
        vs.map some = requiredColumns.map (fun c => rec.lookup c)) ∧
    (∀ c ∈ requiredColumns, (rec.lookup c).isNone →
      ∃ missing, projectRow requiredColumns rec = .error (.schemaError missing) ∧
        c ∈ missing ∧
        ∀ m ∈ missing, m ∈ requiredColumns ∧ (rec.lookup m).isNone) := by
  constructor
  · intro hall
    exact ⟨requiredColumns.filterMap (fun c => rec.lookup c),
      projectRow_ok requiredColumns rec hall, filterMap_map_some _ _ hall⟩
  · intro c hc hnone
    refine ⟨requiredColumns.filter (fun c => (rec.lookup c).isNone), ?_, ?_, ?_⟩
    · unfold projectRow
      rw [if_neg]
      rw [List.isEmpty_eq_true]
      intro hnil
      have : c ∈ requiredColumns.filter (fun c => (rec.lookup c).isNone) :=
        List.mem_filter.mpr ⟨hc, hnone⟩
      rw [hnil] at this
      exact List.not_mem_nil c this
    · exact List.mem_filter.mpr ⟨hc, hnone⟩
    · intro m hm
      exact ⟨(List.mem_filter.mp hm).1, (List.mem_filter.mp hm).2⟩

/-- Witness for C8: a record with the required columns shuffled and an
    extra column projects to the canonical order, and the same record
    without its ndvi column fails naming ndvi. -/
theorem projectRow_spec_witness :
    ((∀ c ∈ requiredColumns,
        (List.lookup c [("extra", (99 : ℚ)), ("soil_moisture", 7), ("ndvi", 6),
          ("spi", 5), ("spei", 4), ("tmin_c", 3), ("tmax_c", 2),
          ("rainfall_mm", 1)]).isSome) ∧
      ∃ vs, projectRow requiredColumns
          [("extra", (99 : ℚ)), ("soil_moisture", 7), ("ndvi", 6), ("spi", 5),
            ("spei", 4), ("tmin_c", 3), ("tmax_c", 2), ("rainfall_mm", 1)]
          = .ok vs ∧
        vs.map some = requiredColumns.map (fun c =>
          List.lookup c [("extra", (99 : ℚ)), ("soil_moisture", 7), ("ndvi", 6),
            ("spi", 5), ("spei", 4), ("tmin_c", 3), ("tmax_c", 2),
            ("rainfall_mm", 1)])) ∧
    ("ndvi" ∈ requiredColumns ∧
      (List.lookup "ndvi" [("rainfall_mm", (1 : ℚ)), ("tmax_c", 2), ("tmin_c", 3),
        ("spei", 4), ("spi", 5), ("soil_moisture", 7)]).isNone ∧
      ∃ missing, projectRow requiredColumns
          [("rainfall_mm", (1 : ℚ)), ("tmax_c", 2), ("tmin_c", 3), ("spei", 4),
            ("spi", 5), ("soil_moisture", 7)]
          = .error (.schemaError missing) ∧
        "ndvi" ∈ missing ∧
        ∀ m ∈ missing, m ∈ requiredColumns ∧
          (List.lookup m [("rainfall_mm", (1 : ℚ)), ("tmax_c", 2), ("tmin_c", 3),
            ("spei", 4), ("spi", 5), ("soil_moisture", 7)]).isNone) :=
  ⟨⟨by decide,
      (projectRow_spec [("extra", (99 : ℚ)), ("soil_moisture", 7), ("ndvi", 6),
        ("spi", 5), ("spei", 4), ("tmin_c", 3), ("tmax_c", 2),
        ("rainfall_mm", 1)]).1 (by decide)⟩,
    ⟨by decide, by decide,
      (projectRow_spec [("rainfall_mm", (1 : ℚ)), ("tmax_c", 2), ("tmin_c", 3),
        ("spei", 4), ("spi", 5), ("soil_moisture", 7)]).2 "ndvi"
        (by decide) (by decide)⟩⟩

theorem tag_window_eq_some {st : ServiceState} {df : List Row} {i : Nat}
    {r : PredictionResult} (h : predict st (window df i) = .ok r) :
    tag_window st df i
      = some { r with window_start := some i, window_end := some (i + 11) } := by
  unfold tag_window
  rw [h]

theorem tag_window_eq_none {st : ServiceState} {df : List Row} {i : Nat}
    {e : MLError} (h : predict st (window df i) = .error e) :
    tag_window st df i = none := by
  unfold tag_window
  rw [h]

theorem batch_map_start (st : ServiceState) (df : List Row) :
    ∀ l : List Nat,
      ((l.filterMap (tag_window st df)).map PredictionResult.window_start)
        = (l.filter (window_ok st df)).map some
  | [] => rfl
  | i :: l => by
    cases h : predict st (window df i) with
    | ok r =>
      have hok : window_ok st df i = true := by
        unfold window_ok
        rw [h]
        rfl
      simp [List.filterMap_cons, List.filter_cons, tag_window_eq_some h, hok,
        batch_map_start st df l]
    | error e =>
      have hok : window_ok st df i = false := by
        unfold window_ok
        rw [h]
        rfl
      simp [List.filterMap_cons, List.filter_cons, tag_window_eq_none h, hok,
        batch_map_start st df l]

theorem batch_map_end (st : ServiceState) (df : List Row) :
    ∀ l : List Nat,
      ((l.filterMap (tag_window st df)).map PredictionResult.window_end)
        = (l.filter (window_ok st df)).map (fun i => some (i + 11))
  | [] => rfl
  | i :: l => by
    cases h : predict st (window df i) with
    | ok r =>
      have hok : window_ok st df i = true := by
        unfold window_ok
        rw [h]
        rfl
      simp [List.filterMap_cons, List.filter_cons, tag_window_eq_some h, hok,
        batch_map_end st df l]
    | error e =>
      have hok : window_ok st df i = false := by
        unfold window_ok
        rw [h]
        rfl
      simp [List.filterMap_cons, List.filter_cons, tag_window_eq_none h, hok,
        batch_map_end st df l]

/-- C3: predict_batch walks exactly the windows starting at 0 through
    N - 12 (rows [i, i+12)), tags them (window_start = i,
    window_end = i + 11) in increasing order of i, and returns the empty
    list without an error whenever fewer than 12 rows are supplied. -/
theorem predict_batch_enumerates_windows (st : ServiceState) (df : List Row) :
    (df.length < 12 → predict_batch st df = []) ∧
    ((∀ i ∈ List.range (df.length - 11), window_ok st df i = true) →
      (predict_batch st df).map PredictionResult.window_start
          = (List.range (df.length - 11)).map some ∧
      (predict_batch st df).map PredictionResult.window_end
          = (List.range (df.length - 11)).map (fun i => some (i + 11))) := by
  constructor
  · intro h
    have h0 : df.length - 11 = 0 := by omega
    unfold predict_batch
    rw [h0]
    rfl
  · intro hall
    have hfilter : (List.range (df.length - 11)).filter (window_ok st df)
        = List.range (df.length - 11) := List.filter_eq_self.mpr hall
    unfold predict_batch
    rw [batch_map_start, batch_map_end, hfilter]
    exact ⟨rfl, rfl⟩

/-- Witness for C3: 11 rows yield the empty list; on 13 rows every window
    succeeds and the two results are tagged (0, 11) and (1, 12) in that
    order. -/
theorem predict_batch_enumerates_windows_witness :
    ((List.replicate 11 goodRow).length < 12 ∧
      predict_batch testState (List.replicate 11 goodRow) = []) ∧
    ((∀ i ∈ List.range ((List.replicate 13 goodRow).length - 11),
        window_ok testState (List.replicate 13 goodRow) i = true) ∧
      ((predict_batch testState (List.replicate 13 goodRow)).map
            PredictionResult.window_start
          = (List.range ((List.replicate 13 goodRow).length - 11)).map some ∧
        (predict_batch testState (List.replicate 13 goodRow)).map
            PredictionResult.window_end
          = (List.range ((List.replicate 13 goodRow).length - 11)).map
              (fun i => some (i + 11)))) :=
  ⟨⟨by decide,
      (predict_batch_enumerates_windows testState (List.replicate 11 goodRow)).1
        (by decide)⟩,
    ⟨by decide,
      (predict_batch_enumerates_windows testState (List.replicate 13 goodRow)).2
        (by decide)⟩⟩

theorem filter_length_partition {α : Type} (p : α → Bool) (l : List α) :
    (l.filter p).length + (l.filter (fun a => !(p a))).length = l.length := by
  induction l with
  | nil => rfl
  | cons a l ih =>
    rw [List.filter_cons, List.filter_cons]
    cases h : p a <;> simp [h] <;> omega

/-- C4: on a table of at least 12 rows the batch predictor returns
    (N - 11) minus the number of failing windows results, and the
    surviving results are exactly the non-failing windows in increasing
    window_start order. -/
theorem predict_batch_skips_failures (st : ServiceState) (df : List Row)
    (h : 12 ≤ df.length) :
    (predict_batch st df).length
        = (df.length - 11)
          - ((List.range (df.length - 11)).filter
              (fun i => !(window_ok st df i))).length ∧
    (predict_batch st df).map PredictionResult.window_start
        = ((List.range (df.length - 11)).filter (window_ok st df)).map some := by
  have hstart : (predict_batch st df).map PredictionResult.window_start
      = ((List.range (df.length - 11)).filter (window_ok st df)).map some := by
    unfold predict_batch
    rw [batch_map_start]
  refine ⟨?_, hstart⟩
  have hlen : (predict_batch st df).length
      = ((List.range (df.length - 11)).filter (window_ok st df)).length := by
    have hc := congrArg List.length hstart
    rw [List.length_map, List.length_map] at hc
    exact hc
  have hpart := filter_length_partition (window_ok st df)
    (List.range (df.length - 11))
  rw [List.length_range] at hpart
  omega

/-- Witness for C4: thirteen rows whose first row is missing six columns
    make window 0 fail and window 1 succeed, so one of the two windows
    survives and it is tagged window_start = 1. -/
theorem predict_batch_skips_failures_witness :
    12 ≤ (badRow :: List.replicate 12 goodRow : List Row).length ∧
    ((predict_batch testState (badRow :: List.replicate 12 goodRow)).length
        = ((badRow :: List.replicate 12 goodRow : List Row).length - 11)
          - ((List.range
                ((badRow :: List.replicate 12 goodRow : List Row).length - 11)).filter
              (fun i => !(window_ok testState (badRow :: List.replicate 12 goodRow) i))).length ∧
      (predict_batch testState (badRow :: List.replicate 12 goodRow)).map
          PredictionResult.window_start
        = ((List.range
              ((badRow :: List.replicate 12 goodRow : List Row).length - 11)).filter
            (window_ok testState (badRow :: List.replicate 12 goodRow))).map some) ∧
    (predict_batch testState (badRow :: List.replicate 12 goodRow)).map
        PredictionResult.window_start = [some 1] :=
  ⟨by decide,
    predict_batch_skips_failures testState (badRow :: List.replicate 12 goodRow)
      (by decide),
    by decide⟩

theorem mapExcept_ok {α β ε : Type} (f : α → Except ε β) (l : List α)
    (h : ∀ a ∈ l, ∃ b, f a = .ok b) : ∃ bs, mapExcept f l = .ok bs := by
  induction l with
  | nil => exact ⟨[], rfl⟩
  | cons a l ih =>
    rcases h a (List.mem_cons_self a l) with ⟨b, hb⟩
    rcases ih (fun x hx => h x (List.mem_cons_of_mem a hx)) with ⟨bs, hbs⟩
    refine ⟨b :: bs, ?_⟩
    unfold mapExcept
    rw [hb, hbs]
    rfl

theorem predict_ok (st : ServiceState) (df : List Row)
    (m : List (List (List ℚ)) → ℚ) (sx sy : Scaler)
    (hm : st.model = some m) (hx : st.scaler_X = some sx)
    (hy : st.scaler_y = some sy)
    (hcols : ∀ row ∈ df, ∀ c ∈ st.feature_names, (row.lookup c).isSome) :
    ∃ r, predict st df = .ok r := by
  obtain ⟨bs, hbs⟩ := mapExcept_ok (projectRow st.feature_names) df
    (fun row hrow => ⟨_, projectRow_ok st.feature_names row (hcols row hrow)⟩)
  have hpre : preprocess_data st.feature_names sx df = .ok (scale_and_batch sx bs) := by
    unfold preprocess_data
    rw [hbs]
    rfl
  cases hp : predict st df with
  | ok r => exact ⟨r, rfl⟩
  | error e =>
    unfold predict predictM at hp
    simp only [hm, hx, hy, hpre] at hp
    exact Except.noConfusion hp

/-- C10: the core pipeline performs no range validation: once the model
    and scalers are loaded, any schema-complete window is predicted
    without error whatever its ndvi or soil_moisture values, predict_batch
    keeps every such window, and the documented range bounds are exactly
    the ones the manual-request pydantic model enforces at the HTTP
    boundary. -/
theorem core_performs_no_range_validation (st : ServiceState) (df : List Row)
    (m : List (List (List ℚ)) → ℚ) (sx sy : Scaler)
    (hm : st.model = some m) (hx : st.scaler_X = some sx)
    (hy : st.scaler_y = some sy)
    (hcols : ∀ row ∈ df, ∀ c ∈ st.feature_names, (row.lookup c).isSome) :
    (∃ r, predict st df = .ok r) ∧
    (predict_batch st df).length = df.length - 11 ∧
    (∀ r : MonthlyFeatures, MonthlyFeatures.valid r = true ↔
      (0 ≤ r.ndvi ∧ r.ndvi ≤ 1 ∧ 0 ≤ r.soil_moisture ∧ r.soil_moisture ≤ 100)) := by
  refine ⟨predict_ok st df m sx sy hm hx hy hcols, ?_, ?_⟩
  · have hall : ∀ i ∈ List.range (df.length - 11), window_ok st df i = true := by
      intro i _
      unfold window_ok
      have hwin : ∀ row ∈ window df i, ∀ c ∈ st.feature_names,
          (row.lookup c).isSome := by
        intro row hrow c hc
        exact hcols row (List.mem_of_mem_drop (List.mem_of_mem_take hrow)) c hc
      obtain ⟨r, hr⟩ := predict_ok st (window df i) m sx sy hm hx hy hwin
      rw [hr]
      rfl
    have hstart : (predict_batch st df).map PredictionResult.window_start
        = ((List.range (df.length - 11)).filter (window_ok st df)).map some := by
      unfold predict_batch
      rw [batch_map_start]
    have hc := congrArg List.length hstart
    rw [List.length_map, List.length_map] at hc
    rw [hc, List.filter_eq_self.mpr hall, List.length_range]
  · intro r
    unfold MonthlyFeatures.valid
    simp [and_assoc]

/-- Witness for C10: a 12-row window whose every row has ndvi = 5 and
    soil_moisture = -3 is predicted and batch-processed without error,
    while the pydantic month model rejects those same values. -/
theorem core_performs_no_range_validation_witness :
    ((∀ row ∈ List.replicate 12 oorRow, ∀ c ∈ testState.feature_names,
        ((row : Row).lookup c).isSome) ∧
      ((∃ r, predict testState (List.replicate 12 oorRow) = .ok r) ∧
        (predict_batch testState (List.replicate 12 oorRow)).length
            = (List.replicate 12 oorRow).length - 11 ∧
        (∀ r : MonthlyFeatures, MonthlyFeatures.valid r = true ↔
          (0 ≤ r.ndvi ∧ r.ndvi ≤ 1 ∧
            0 ≤ r.soil_moisture ∧ r.soil_moisture ≤ 100)))) ∧
    MonthlyFeatures.valid ⟨0, 0, 0, 0, 0, 5, -3⟩ = false :=
  ⟨⟨by decide,
      core_performs_no_range_validation testState (List.replicate 12 oorRow)
        (fun _ => 0) ⟨0, 1⟩ ⟨0, 1⟩ rfl rfl rfl (by decide)⟩,
    by decide⟩

end DroughtML
